import Mathlib

/-!
Verification of the query/filter/favorites engine of the-crow-code.

The definitions below are a shallow embedding of the TypeScript sources:
the filter computations of SkillsPage and PluginsPage, the favorites
toggle handler and auth bootstrap of App.tsx, and the profile store of
lib/firebase.ts (the mock store whose lines the claims cite, plus the
Firestore variant shipped in the same file). JavaScript strings are
modelled as Lean strings; the method toLowerCase is modelled as a
character map and the method includes as list-infix containment.
-/

/-- Model of the JavaScript method toLowerCase, applied characterwise. -/
def jsToLower (s : String) : String := String.mk (s.data.map Char.toLower)

/-- Model of the JavaScript method includes: sub occurs contiguously in hay. -/
def jsIncludes (hay sub : String) : Bool := decide (sub.toList <:+: hay.toList)

/-- Catalog item shape of data/skills as used by SkillsPage. -/
structure Skill where
  id : String
  name : String
  description : String
  category : String
  author : String
  githubUrl : String
  tags : List String
deriving DecidableEq, Repr

/-- Catalog item shape of data/plugins as used by PluginsPage. -/
structure Plugin where
  id : String
  name : String
  description : String
  category : String
  source : String
  tags : List String
deriving DecidableEq, Repr

/-- The filteredSkills computation of SkillsPage: an item passes when the
lowercased query occurs in its lowercased name, description or one of its
tags, and the selected category is All or equals its category. -/
def filteredSkills (skills : List Skill) (searchQuery selectedCategory : String) : List Skill :=
  skills.filter fun skill =>
    (jsIncludes (jsToLower skill.name) (jsToLower searchQuery)
      || jsIncludes (jsToLower skill.description) (jsToLower searchQuery)
      || skill.tags.any fun tag => jsIncludes (jsToLower tag) (jsToLower searchQuery))
    && (selectedCategory == "All" || skill.category == selectedCategory)

/-- The filteredPlugins computation of PluginsPage: like filteredSkills with
an additional source facet that passes when the filter is the string all or
equals the item source. -/
def filteredPlugins (plugins : List Plugin) (searchQuery selectedCategory sourceFilter : String) :
    List Plugin :=
  plugins.filter fun plugin =>
    (jsIncludes (jsToLower plugin.name) (jsToLower searchQuery)
      || jsIncludes (jsToLower plugin.description) (jsToLower searchQuery)
      || plugin.tags.any fun tag => jsIncludes (jsToLower tag) (jsToLower searchQuery))
    && (selectedCategory == "All" || plugin.category == selectedCategory)
    && (sourceFilter == "all" || plugin.source == sourceFilter)

/-- The four favorites domains tracked by the local state of App.tsx. -/
inductive FavKey
  | skills
  | mcpServers
  | tools
  | plugins
deriving DecidableEq, Repr

/-- The three domains accepted by the remote mutation updateFavorites and
stored in the remote profile document: plugins is not among them. -/
inductive RemoteFavKey
  | skills
  | mcpServers
  | tools
deriving DecidableEq, Repr

/-- The remote mutation direction of updateFavorites. -/
inductive FavAction
  | add
  | remove
deriving DecidableEq, Repr

/-- Local favorites object of App.tsx: a JavaScript object read by domain
key; a key missing from the object reads as undefined, modelled as none. -/
def Favs := FavKey → Option (List String)

/-- Identity shape produced by the auth capability. -/
structure User where
  uid : String
  email : Option String
  displayName : Option String
  photoURL : Option String
  emailVerified : Bool
  providerData : List String
deriving DecidableEq, Repr

/-- Favorites field of the stored remote profile: exactly three domains. -/
structure ProfileFavorites where
  skills : List String
  mcpServers : List String
  tools : List String
deriving DecidableEq, Repr

/-- Remote profile document shape of lib/firebase.ts. -/
structure UserProfile where
  uid : String
  email : Option String
  displayName : Option String
  photoURL : Option String
  favorites : ProfileFavorites
  createdAt : Nat
deriving DecidableEq, Repr

/-- The optimistic update of handleToggleFavorite for the toggled domain
list: when the item was a favorite the action is remove, implemented as a
filter dropping the id; otherwise the action is add, appending the id. -/
def optimisticUpdate (lst : List String) (id : String) (isFavorite : Bool) : List String :=
  if isFavorite then lst.filter (fun itemId => itemId != id) else lst ++ [id]

/-- The compensating update of the catch branch of handleToggleFavorite,
applied to the current list: re-append the id when it had been a favorite,
filter it out when it had not. It touches only the single id. -/
def rollbackUpdate (lst : List String) (id : String) (isFavorite : Bool) : List String :=
  if isFavorite then lst ++ [id] else lst.filter (fun itemId => itemId != id)

/-- One full toggle transition on a domain list, reading the membership of
the id from the current list exactly as the handler reads it. -/
def applyToggle (lst : List String) (id : String) : List String :=
  optimisticUpdate lst id (lst.contains id)

/-- Observable result of a toggle request: either the caller is redirected
to the login page, or a remote mutation is issued with these arguments. -/
inductive ToggleOutcome
  | signInRequired
  | remoteIssued (uid : String) (ty : FavKey) (id : String) (action : FavAction)

/-- The handleToggleFavorite callback of App.tsx up to the point where the
remote call is issued. Without a user it returns the favorites object
untouched and signals sign-in. With a user it reads the current membership,
applies the optimistic single-key update and issues the remote mutation.
Reading a domain key that is absent from the favorites object raises a
runtime TypeError, modelled as the error branch. -/
def handleToggleFavorite (user : Option User) (favorites : Favs) (ty : FavKey) (id : String) :
    Except String (Favs × ToggleOutcome) :=
  match user with
  | none => Except.ok (favorites, ToggleOutcome.signInRequired)
  | some u =>
    match favorites ty with
    | none => Except.error "TypeError: reading includes of undefined"
    | some lst =>
      let isFavorite := lst.contains id
      let action := if isFavorite then FavAction.remove else FavAction.add
      Except.ok
        (fun k => if k = ty then some (optimisticUpdate lst id isFavorite) else favorites k,
         ToggleOutcome.remoteIssued u.uid ty id action)

/-- The catch branch of handleToggleFavorite as a state update: the rollback
is a functional update of the current favorites object touching only the
toggled key, recomputed from the pre-toggle membership flag. -/
def rollbackFavorite (favorites : Favs) (ty : FavKey) (id : String) (isFavorite : Bool) : Favs :=
  fun k => if k = ty then (favorites k).map (fun lst => rollbackUpdate lst id isFavorite)
           else favorites k

/-- Result of one remote call: a resolved value or a rejected promise
carrying an error message. -/
inductive RemoteResult (α : Type)
  | ok (a : α)
  | err (e : String)

/-- Responses of the profile store to the at most three remote calls the
auth bootstrap can make: first fetch, create, re-fetch. -/
structure RemoteStore where
  get1 : RemoteResult (Option UserProfile)
  create : RemoteResult Unit
  get2 : RemoteResult (Option UserProfile)

/-- The slice of App.tsx component state the bootstrap touches. -/
structure AppState where
  user : Option User
  favorites : Favs
  isAuthLoading : Bool

/-- The favorites object literal with all four domains present and empty,
as assigned on sign-out and at mount. -/
def emptyFavorites : Favs := fun _ => some []

/-- Hydration assigns the fetched profile favorites object wholesale to the
local state: the three stored domains are present and the plugins key is
absent, reading as undefined. -/
def hydrateFavorites (pf : ProfileFavorites) : Favs := fun k =>
  match k with
  | FavKey.skills => some pf.skills
  | FavKey.mcpServers => some pf.mcpServers
  | FavKey.tools => some pf.tools
  | FavKey.plugins => none

/-- The onAuthStateChanged callback of App.tsx. The async body has no
try-catch: a rejected remote call aborts the remaining statements, the
state updates already applied are kept, and the rejection escapes uncaught,
returned here as the second component. -/
def authCallback (r : RemoteStore) (firebaseUser : Option User) (s : AppState) :
    AppState × Option String :=
  match firebaseUser with
  | some fu =>
    let s1 : AppState := { s with user := some fu }
    match r.get1 with
    | RemoteResult.err e => (s1, some e)
    | RemoteResult.ok (some p) =>
      ({ s1 with favorites := hydrateFavorites p.favorites, isAuthLoading := false }, none)
    | RemoteResult.ok none =>
      match r.create with
      | RemoteResult.err e => (s1, some e)
      | RemoteResult.ok _ =>
        match r.get2 with
        | RemoteResult.err e => (s1, some e)
        | RemoteResult.ok (some p) =>
          ({ s1 with favorites := hydrateFavorites p.favorites, isAuthLoading := false }, none)
        | RemoteResult.ok none => ({ s1 with isAuthLoading := false }, none)
  | none =>
    ({ s with user := none, favorites := emptyFavorites, isAuthLoading := false }, none)

/-- State of App.tsx after a successful hydration for a user. -/
def hydratedState (s : AppState) (u : User) (pf : ProfileFavorites) : AppState :=
  { s with user := some u, favorites := hydrateFavorites pf, isAuthLoading := false }

/-- The fresh profile document built by createUserProfile of the mock
store: empty favorites for the three stored domains. -/
def freshProfile (user : User) (now : Nat) : UserProfile :=
  { uid := user.uid
    email := user.email
    displayName := user.displayName
    photoURL := user.photoURL
    favorites := { skills := [], mcpServers := [], tools := [] }
    createdAt := now }

/-- The getUserProfile lookup of the mock store. -/
def getUserProfile (mockUsers : String → Option UserProfile) (uid : String) :
    Option UserProfile :=
  mockUsers uid

/-- The createUserProfile of the mock store cited by the claims: it writes
a fresh empty profile under the uid unconditionally, overwriting any entry
already stored there. -/
def createUserProfile (mockUsers : String → Option UserProfile) (user : User) (now : Nat) :
    String → Option UserProfile :=
  fun k => if k = user.uid then some (freshProfile user now) else mockUsers k

/-- The createUserProfile of the Firestore variant shipped in the same
file: it first fetches the document and returns without writing when it
already exists. -/
def createUserProfileFirestore (users : String → Option UserProfile) (user : User) (now : Nat) :
    String → Option UserProfile :=
  match users user.uid with
  | some _ => users
  | none => fun k => if k = user.uid then some (freshProfile user now) else users k

/-- Sample identity used by the concrete scenarios below. -/
def sampleUser : User :=
  { uid := "u1"
    email := none
    displayName := none
    photoURL := none
    emailVerified := true
    providerData := ["google.com"] }

/-- Sample skill from the spec scenario table. -/
def sampleSkill : Skill :=
  { id := "s1"
    name := "Git Helper"
    description := "Automates common git workflows"
    category := "DevOps"
    author := "crow"
    githubUrl := ""
    tags := ["git", "cli"] }

/-- Sample plugin with an official source. -/
def samplePlugin : Plugin :=
  { id := "p1"
    name := "Formatter"
    description := "Formats code on save"
    category := "Development"
    source := "official"
    tags := ["format"] }

/-- App state as initialised at mount: no user, all four favorite domains
present and empty, auth loading in progress. -/
def initialAppState : AppState :=
  { user := none
    favorites := emptyFavorites
    isAuthLoading := true }

/-- A store whose first profile fetch rejects. -/
def failingStore : RemoteStore :=
  { get1 := RemoteResult.err "network failure"
    create := RemoteResult.ok ()
    get2 := RemoteResult.ok none }

/-- A stored profile for uid u1 with one favorited skill. -/
def existingProfile : UserProfile :=
  { uid := "u1"
    email := none
    displayName := none
    photoURL := none
    favorites := { skills := ["s1"], mcpServers := [], tools := [] }
    createdAt := 0 }

/-- A mock store already holding the profile of uid u1. -/
def storeWithU1 : String → Option UserProfile :=
  fun k => if k = "u1" then some existingProfile else none

/-- Empty string lowers to the empty string. -/
theorem jsToLower_empty : jsToLower "" = "" := rfl

/-- Every string includes the empty string, as in JavaScript. -/
theorem jsIncludes_empty (s : String) : jsIncludes s "" = true := by
  have h : ("" : String).toList = [] := rfl
  simp [jsIncludes, h]

/-- Filtering twice with one predicate equals filtering once. -/
theorem filter_idem (p : α → Bool) (l : List α) : (l.filter p).filter p = l.filter p := by
  rw [List.filter_filter]
  simp

/-- C7: filtering any skills catalog with the category All and the empty
query returns the catalog itself, unchanged. -/
theorem filterIdentityLaw (skills : List Skill) : filteredSkills skills "" "All" = skills := by
  apply List.filter_eq_self.mpr
  intro skill _
  simp [jsToLower_empty, jsIncludes_empty]

/-- C8: applying the skills filter twice with the same query and category
equals applying it once. -/
theorem filterIdempotent (skills : List Skill) (q cat : String) :
    filteredSkills (filteredSkills skills q cat) q cat = filteredSkills skills q cat := by
  unfold filteredSkills
  exact filter_idem _ _

/-- C9: the filter result is a stable subsequence of the input catalog
(hence every result item occurs in the input, in the same relative order),
and the empty catalog filters to the empty result rather than an error;
both facts hold for the skills filter and for the plugins filter. -/
theorem filterStableSubsequence (skills : List Skill) (plugins : List Plugin)
    (q cat src : String) :
    (filteredSkills skills q cat).Sublist skills
    ∧ filteredSkills [] q cat = []
    ∧ (filteredPlugins plugins q cat src).Sublist plugins
    ∧ filteredPlugins [] q cat src = [] :=
  ⟨List.filter_sublist _, rfl, List.filter_sublist _, rfl⟩

/-- C2: with category All and no source facet requested, a catalog item is
in the filtered result exactly when the lowercased query occurs in its
lowercased name, lowercased description, or at least one lowercased tag;
the empty query matches every item. Stated for the skills filter and for
the plugins filter with the source facet at all. -/
theorem searchMembershipSpec (skills : List Skill) (plugins : List Plugin) (q : String)
    (i : Skill) (j : Plugin) (hi : i ∈ skills) (hj : j ∈ plugins) :
    (i ∈ filteredSkills skills q "All" ↔
      ((jsToLower q).toList <:+: (jsToLower i.name).toList
        ∨ (jsToLower q).toList <:+: (jsToLower i.description).toList
        ∨ ∃ tag ∈ i.tags, (jsToLower q).toList <:+: (jsToLower tag).toList))
    ∧ (j ∈ filteredPlugins plugins q "All" "all" ↔
      ((jsToLower q).toList <:+: (jsToLower j.name).toList
        ∨ (jsToLower q).toList <:+: (jsToLower j.description).toList
        ∨ ∃ tag ∈ j.tags, (jsToLower q).toList <:+: (jsToLower tag).toList))
    ∧ i ∈ filteredSkills skills "" "All"
    ∧ j ∈ filteredPlugins plugins "" "All" "all" := by
  refine ⟨?_, ?_, ?_, ?_⟩
  · simp only [filteredSkills, List.mem_filter, hi, true_and, Bool.and_eq_true,
      Bool.or_eq_true, beq_self_eq_true, true_or, and_true, jsIncludes, decide_eq_true_eq,
      List.any_eq_true]
    exact or_assoc
  · simp only [filteredPlugins, List.mem_filter, hj, true_and, Bool.and_eq_true,
      Bool.or_eq_true, beq_self_eq_true, true_or, and_true, jsIncludes, decide_eq_true_eq,
      List.any_eq_true]
    exact or_assoc
  · simp [filteredSkills, List.mem_filter, hi, jsToLower_empty, jsIncludes_empty]
  · simp [filteredPlugins, List.mem_filter, hj, jsToLower_empty, jsIncludes_empty]

/-- Witness for C2: the membership characterisation evaluated on a
one-skill and one-plugin catalog with the query git. -/
theorem searchMembershipWitness :
    (sampleSkill ∈ filteredSkills [sampleSkill] "git" "All" ↔
      ((jsToLower "git").toList <:+: (jsToLower sampleSkill.name).toList
        ∨ (jsToLower "git").toList <:+: (jsToLower sampleSkill.description).toList
        ∨ ∃ tag ∈ sampleSkill.tags, (jsToLower "git").toList <:+: (jsToLower tag).toList))
    ∧ (samplePlugin ∈ filteredPlugins [samplePlugin] "git" "All" "all" ↔
      ((jsToLower "git").toList <:+: (jsToLower samplePlugin.name).toList
        ∨ (jsToLower "git").toList <:+: (jsToLower samplePlugin.description).toList
        ∨ ∃ tag ∈ samplePlugin.tags, (jsToLower "git").toList <:+: (jsToLower tag).toList))
    ∧ sampleSkill ∈ filteredSkills [sampleSkill] "" "All"
    ∧ samplePlugin ∈ filteredPlugins [samplePlugin] "" "All" "all" :=
  searchMembershipSpec [sampleSkill] [samplePlugin] "git" sampleSkill samplePlugin
    (List.mem_singleton.mpr rfl) (List.mem_singleton.mpr rfl)

/-- Membership of the toggled id after the rollback is set by the captured
pre-toggle flag alone, whatever list the rollback is applied to. -/
theorem mem_rollbackUpdate_self (m : List String) (id : String) (b : Bool) :
    (id ∈ rollbackUpdate m id b) ↔ b = true := by
  cases b <;> simp [rollbackUpdate]

/-- The rollback changes no membership other than that of the toggled id. -/
theorem mem_rollbackUpdate_other (m : List String) (id j : String) (b : Bool) (h : j ≠ id) :
    (j ∈ rollbackUpdate m id b) ↔ j ∈ m := by
  cases b <;> simp [rollbackUpdate, h]

/-- Contains agrees with list membership for strings. -/
theorem contains_iff_mem (l : List String) (a : String) : l.contains a = true ↔ a ∈ l := by
  simp

/-- C1: after an optimistic toggle of an id from pre-toggle list l0,
followed by any sequence of toggles of other ids, the rollback of the
failed toggle restores the membership of the toggled id to exactly its
pre-toggle value, and it leaves the membership of every other id exactly
as the concurrent toggles left it, because it is a single-id add or
remove and not a whole-set overwrite. -/
theorem toggleRollbackRestoresMembership (l0 : List String) (id : String) (ops : List String)
    (hops : ∀ j ∈ ops, j ≠ id) :
    ((id ∈ rollbackUpdate (ops.foldl applyToggle (optimisticUpdate l0 id (l0.contains id)))
        id (l0.contains id)) ↔ id ∈ l0)
    ∧ (∀ j, j ≠ id →
      ((j ∈ rollbackUpdate (ops.foldl applyToggle (optimisticUpdate l0 id (l0.contains id)))
          id (l0.contains id)) ↔
        j ∈ ops.foldl applyToggle (optimisticUpdate l0 id (l0.contains id)))) := by
  constructor
  · rw [mem_rollbackUpdate_self, contains_iff_mem]
  · intro j hj
    exact mem_rollbackUpdate_other _ _ _ _ hj

/-- Witness for C1: the spec §8 rollback scenario, a skills list holding
the single id a, toggled off, with one concurrent toggle of the id b. -/
theorem toggleRollbackWitness :
    ((("a" : String) ∈ rollbackUpdate
        ((["b"] : List String).foldl applyToggle
          (optimisticUpdate ["a"] "a" ((["a"] : List String).contains "a")))
        "a" ((["a"] : List String).contains "a")) ↔ ("a" : String) ∈ (["a"] : List String))
    ∧ (∀ j, j ≠ "a" →
      ((j ∈ rollbackUpdate
          ((["b"] : List String).foldl applyToggle
            (optimisticUpdate ["a"] "a" ((["a"] : List String).contains "a")))
          "a" ((["a"] : List String).contains "a")) ↔
        j ∈ (["b"] : List String).foldl applyToggle
          (optimisticUpdate ["a"] "a" ((["a"] : List String).contains "a")))) :=
  toggleRollbackRestoresMembership ["a"] "a" ["b"] (by decide)

/-- C6: two toggles of the same id in immediate succession, the second
reading the optimistic state left by the first, apply the two transitions
in request order and return the membership of the id to its pre-toggle
value. -/
theorem doubleToggleRestoresMembership (lst : List String) (id : String) :
    (id ∈ applyToggle (applyToggle lst id) id) ↔ id ∈ lst := by
  by_cases hm : id ∈ lst
  · have hc : lst.contains id = true := (contains_iff_mem lst id).mpr hm
    have h1 : applyToggle lst id = lst.filter (fun itemId => itemId != id) := by
      unfold applyToggle optimisticUpdate
      rw [hc]
      rfl
    have hc2 : (lst.filter (fun itemId => itemId != id)).contains id = false := by
      rcases h : (lst.filter (fun itemId => itemId != id)).contains id with _ | _
      · rfl
      · have := (contains_iff_mem _ id).mp h
        simp at this
    rw [h1]
    unfold applyToggle optimisticUpdate
    rw [hc2]
    simp [hm]
  · have hc : lst.contains id = false := by
      rcases h : lst.contains id with _ | _
      · rfl
      · exact absurd ((contains_iff_mem lst id).mp h) hm
    have h1 : applyToggle lst id = lst ++ [id] := by
      unfold applyToggle optimisticUpdate
      rw [hc]
      rfl
    have hc2 : (lst ++ [id]).contains id = true := by
      rw [contains_iff_mem]
      simp
    rw [h1]
    unfold applyToggle optimisticUpdate
    rw [hc2]
    simp [hm]

/-- C4: a toggle with no identity present leaves the favorites object
untouched, issues no remote call, and signals the caller to begin
sign-in. -/
theorem anonymousToggleNoOp (favorites : Favs) (ty : FavKey) (id : String) :
    handleToggleFavorite none favorites ty id =
      Except.ok (favorites, ToggleOutcome.signInRequired) := rfl

/-- Counterexample to C3: with a store whose profile fetch rejects, the
bootstrap callback lets the rejection escape uncaught, and the session
stays in the loading state instead of transitioning to authenticated with
empty favorites; the conjunction claimed by C3 is false at this input. -/
theorem bootstrapFailureCounterexample :
    (authCallback failingStore (some sampleUser) initialAppState).2 = some "network failure"
    ∧ (authCallback failingStore (some sampleUser) initialAppState).1.isAuthLoading = true
    ∧ ¬((authCallback failingStore (some sampleUser) initialAppState).2 = none
        ∧ (authCallback failingStore (some sampleUser) initialAppState).1.isAuthLoading
            = false) :=
  ⟨rfl, rfl, fun h => Option.noConfusion h.1⟩

/-- C3 amended: the bootstrap callback has no catch, so a failing profile
fetch or create escapes uncaught at any of the three remote calls; the
state keeps the updates applied before the failure, namely the user is
set, and the loading flag and favorites are left exactly as they were, so
the session stays blocked in its prior loading state rather than becoming
authenticated with empty favorites. -/
theorem bootstrapFailureUncaught (e : String) (c : RemoteResult Unit)
    (g g2 : RemoteResult (Option UserProfile)) (u : User) (s : AppState) :
    authCallback ⟨RemoteResult.err e, c, g⟩ (some u) s
        = ({ s with user := some u }, some e)
    ∧ authCallback ⟨RemoteResult.ok none, RemoteResult.err e, g2⟩ (some u) s
        = ({ s with user := some u }, some e)
    ∧ authCallback ⟨RemoteResult.ok none, RemoteResult.ok (), RemoteResult.err e⟩ (some u) s
        = ({ s with user := some u }, some e) :=
  ⟨rfl, rfl, rfl⟩

/-- C10: whenever the bootstrap succeeds in fetching a profile, either on
the first fetch or after a create, the local favorites object is replaced
wholesale by the hydrated profile favorites, and in the hydrated object
the plugins key is absent whatever the prior local state held after any
toggles; the profile and the remote mutation cover only the three stored
domains. -/
theorem hydrationDropsPlugins (u : User) (p : UserProfile) (c : RemoteResult Unit)
    (g : RemoteResult (Option UserProfile)) (s : AppState) :
    authCallback ⟨RemoteResult.ok (some p), c, g⟩ (some u) s
        = (hydratedState s u p.favorites, none)
    ∧ authCallback ⟨RemoteResult.ok none, RemoteResult.ok (), RemoteResult.ok (some p)⟩
        (some u) s = (hydratedState s u p.favorites, none)
    ∧ hydrateFavorites p.favorites FavKey.plugins = none
    ∧ hydrateFavorites p.favorites FavKey.skills = some p.favorites.skills
    ∧ hydrateFavorites p.favorites FavKey.mcpServers = some p.favorites.mcpServers
    ∧ hydrateFavorites p.favorites FavKey.tools = some p.favorites.tools :=
  ⟨rfl, rfl, rfl, rfl, rfl, rfl⟩

/-- The Firestore createUserProfile never overwrites an existing profile:
when a document already exists under the uid, the store is unchanged. -/
theorem createFirestoreNoOpIfExists (users : String → Option UserProfile) (user : User)
    (now : Nat) (p : UserProfile) (h : users user.uid = some p) :
    createUserProfileFirestore users user now = users := by
  unfold createUserProfileFirestore
  rw [h]

/-- Witness for the Firestore no-op lemma at the concrete u1 store. -/
theorem createFirestoreNoOpWitness :
    createUserProfileFirestore storeWithU1 sampleUser 1 = storeWithU1 :=
  createFirestoreNoOpIfExists storeWithU1 sampleUser 1 existingProfile (by decide)

/-- C5 is violated by the mock store the claim cites: calling the mock
createUserProfile for a uid whose profile already exists, which the login
page does on every social sign-in, overwrites the stored profile with a
fresh one whose favorite sets are empty. The Firestore variant in the same
file implements the claimed no-op semantics instead. -/
theorem createOverwritesExistingProfile :
    getUserProfile storeWithU1 "u1" = some existingProfile
    ∧ existingProfile.favorites.skills = ["s1"]
    ∧ getUserProfile (createUserProfile storeWithU1 sampleUser 1) "u1"
        = some (freshProfile sampleUser 1)
    ∧ (freshProfile sampleUser 1).favorites.skills = []
    ∧ getUserProfile (createUserProfile storeWithU1 sampleUser 1) "u1"
        ≠ some existingProfile := by
  refine ⟨by decide, rfl, by decide, rfl, by decide⟩
